import Mathlib

/-!
# EmissionExplorer — verification of the core computations

Shallow embedding of `src/app.py` (a Streamlit CO2-footprint app) over `ℚ`.
Python floats are modelled by exact rationals; all spec statements are
"within floating-point tolerance", which exact rational arithmetic satisfies.
External collaborators (the Nominatim geocoder, the geodesic distance
function, the fitted scikit-learn random forest) are parameters of the
embedded functions; everything else is translated directly from the source.
-/

namespace EmissionExplorer

/-- The five transport modes of the app (source strings
"Auto", "Flugzeug", "Zug", "Bus", "Motorrad"; in the spec's English naming:
Car, Plane, Train, Bus, Motorcycle). -/
inductive Transport
  | Auto
  | Flugzeug
  | Zug
  | Bus
  | Motorrad
deriving DecidableEq, Repr

/-- CO2 emission factors in kg per km (`emission_factors` dict,
src/app.py lines 183-189). -/
def emission_factors : Transport → ℚ
  | .Auto => 0.17
  | .Flugzeug => 0.24
  | .Zug => 0.04
  | .Bus => 0.07
  | .Motorrad => 0.11

/-- Distance adjustment factors (`distance_factors` dict, src/app.py
lines 192-198, re-declared identically inside `calculate_co2_footprint`
at lines 221-227; the inner copy is the one the loop reads). -/
def distance_factors : Transport → ℚ
  | .Auto => 1.2
  | .Flugzeug => 1.0
  | .Zug => 1.3
  | .Bus => 1.3
  | .Motorrad => 1.2

/-- Python's `round(x, 2)`: round to two decimal places. Modelled with
round-half-up on rationals; Python uses round-half-even on binary doubles,
which differs only at exact half-cent ties, none of which occur in the
claims' inputs. -/
def round2 (q : ℚ) : ℚ := ((round (q * 100) : ℤ) : ℚ) / 100

/-- Source line 233: `distance = direct_distance * distance_factors[transport]`. -/
def distanz (direct_distance : ℚ) (t : Transport) : ℚ :=
  direct_distance * distance_factors t

/-- Source lines 235-237: `total_co2 = distance * co2_per_km`. -/
def gesamt_co2 (direct_distance : ℚ) (t : Transport) : ℚ :=
  distanz direct_distance t * emission_factors t

/-- Source line 239: `co2_per_person = total_co2 / num_travelers`. -/
def co2_pro_person (direct_distance : ℚ) (t : Transport) (num_travelers : ℚ) : ℚ :=
  gesamt_co2 direct_distance t / num_travelers

/-- One entry of the `results` list (src/app.py lines 242-247):
per-mode comparison row with values rounded to two decimal places. -/
structure ComparisonRow where
  transportmittel : Transport
  distanz_km : ℚ
  co2_pro_person_kg : ℚ
  gesamt_co2_kg : ℚ
deriving DecidableEq, Repr

/-- The loop body of `calculate_co2_footprint` (src/app.py lines 231-247):
computes distance, total CO2 and per-person CO2 for one transport and
appends the rounded values. -/
def comparison_row (direct_distance : ℚ) (t : Transport) (num_travelers : ℚ) :
    ComparisonRow :=
  { transportmittel := t
    distanz_km := round2 (distanz direct_distance t)
    co2_pro_person_kg := round2 (co2_pro_person direct_distance t num_travelers)
    gesamt_co2_kg := round2 (gesamt_co2 direct_distance t) }

/-- A geocoded location: latitude and longitude
(src/app.py lines 214-215). -/
structure Location where
  latitude : ℚ
  longitude : ℚ
deriving DecidableEq, Repr

/-- The value returned by `calculate_co2_footprint` on success
(src/app.py line 250): the results DataFrame plus the rounded direct
distance and the two coordinate pairs. -/
structure FootprintResult where
  rows : List ComparisonRow
  direct_distance : ℚ
  start_coords : ℚ × ℚ
  end_coords : ℚ × ℚ
deriving DecidableEq, Repr

/-- The function `calculate_co2_footprint` (src/app.py lines 201-255). The geocoder and
the geodesic distance function are external collaborators, passed as
parameters: `geocode` returns `none` when Nominatim cannot resolve a place
name, `geodesic_km` is geopy's geodesic distance in kilometers. When either
endpoint is unresolvable the source shows `st.error` and returns `None`
(lines 209-211), modelled here as `none`: no comparison rows are produced.
The direct distance is rounded to two decimals (line 218) before the
per-mode loop multiplies it by the distance factors. -/
def calculate_co2_footprint (geocode : String → Option Location)
    (geodesic_km : ℚ × ℚ → ℚ × ℚ → ℚ)
    (startPoint endPoint : String) (transports : List Transport)
    (num_travelers : ℚ) : Option FootprintResult :=
  match geocode startPoint, geocode endPoint with
  | some start_location, some end_location =>
      let start_coords := (start_location.latitude, start_location.longitude)
      let end_coords := (end_location.latitude, end_location.longitude)
      let direct_distance := round2 (geodesic_km start_coords end_coords)
      some { rows := transports.map (fun t => comparison_row direct_distance t num_travelers)
             direct_distance := direct_distance
             start_coords := start_coords
             end_coords := end_coords }
  | _, _ => none

/-- Modelled from the spec: Streamlit's `st.number_input` widget with a
`min_value` bound (used at src/app.py line 154 with `min_value=1`) never
returns a value below the minimum — the widget rejects or clamps
out-of-range entries. The widget's internals are library code external to
src/; the clamp to the minimum models its guarantee. -/
def number_input_value (min_value raw : ℤ) : ℤ := max min_value raw

/-- Source line 154: `travelers = st.number_input("Anzahl der Reisenden", min_value=1, value=1)`. -/
def travelers (raw : ℤ) : ℤ := number_input_value 1 raw

/-- C1: for every mode in the fixed 5-element transport enum, every
non-negative direct distance and every traveler count ≥ 1, the baseline
estimate computes `distance = direct_distance * distance_factor[mode]`,
`total_co2 = distance * emission_factor[mode]` and
`co2_per_person = total_co2 / num_travelers`, with the factor tables
{Car:1.2, Plane:1.0, Train:1.3, Bus:1.3, Motorcycle:1.2} and
{Car:0.17, Plane:0.24, Train:0.04, Bus:0.07, Motorcycle:0.11}
(exact over ℚ, hence within floating-point tolerance). -/
theorem claim_C1 (d n : ℚ) (t : Transport) (hd : 0 ≤ d) (hn : 1 ≤ n) :
    distanz d t = d * distance_factors t ∧
    gesamt_co2 d t = distanz d t * emission_factors t ∧
    co2_pro_person d t n = gesamt_co2 d t / n ∧
    distance_factors .Auto = 1.2 ∧ distance_factors .Flugzeug = 1.0 ∧
    distance_factors .Zug = 1.3 ∧ distance_factors .Bus = 1.3 ∧
    distance_factors .Motorrad = 1.2 ∧
    emission_factors .Auto = 0.17 ∧ emission_factors .Flugzeug = 0.24 ∧
    emission_factors .Zug = 0.04 ∧ emission_factors .Bus = 0.07 ∧
    emission_factors .Motorrad = 0.11 :=
  ⟨rfl, rfl, rfl, rfl, rfl, rfl, rfl, rfl, rfl, rfl, rfl, rfl, rfl⟩

/-- Witness for C1 at direct distance 100 km, mode Car, 2 travelers. -/
theorem claim_C1_witness :
    (0 : ℚ) ≤ 100 ∧ (1 : ℚ) ≤ 2 ∧
    (distanz 100 .Auto = 100 * distance_factors .Auto ∧
     gesamt_co2 100 .Auto = distanz 100 .Auto * emission_factors .Auto ∧
     co2_pro_person 100 .Auto 2 = gesamt_co2 100 .Auto / 2 ∧
     distance_factors .Auto = 1.2 ∧ distance_factors .Flugzeug = 1.0 ∧
     distance_factors .Zug = 1.3 ∧ distance_factors .Bus = 1.3 ∧
     distance_factors .Motorrad = 1.2 ∧
     emission_factors .Auto = 0.17 ∧ emission_factors .Flugzeug = 0.24 ∧
     emission_factors .Zug = 0.04 ∧ emission_factors .Bus = 0.07 ∧
     emission_factors .Motorrad = 0.11) :=
  ⟨by norm_num, by norm_num, claim_C1 100 2 .Auto (by norm_num) (by norm_num)⟩

/-- C2: the traveler-count input is bounded below by 1 at the input
boundary (`st.number_input` with `min_value=1`): the returned count is
always ≥ 1, and any raw entry below 1 is clamped to 1 — the per-person
division never sees a count below 1. -/
theorem claim_C2 :
    (∀ raw : ℤ, 1 ≤ travelers raw) ∧
    (∀ raw : ℤ, raw < 1 → travelers raw = 1) := by
  constructor
  · intro raw
    exact le_max_left 1 raw
  · intro raw h
    have : raw ≤ 1 := le_of_lt h
    simp [travelers, number_input_value, max_eq_left this]

/-- Witness for C2: a raw entry of 0 (below 1) is clamped to 1. -/
theorem claim_C2_witness : (0 : ℤ) < 1 ∧ travelers 0 = 1 :=
  ⟨by decide, claim_C2.2 0 (by decide)⟩

/-- C4: if either endpoint is unresolvable by the geocoder, the
computation returns the location-not-found failure (`None` after the
`st.error` message at src/app.py lines 209-211): no comparison rows are
produced, for any transports and traveler count. -/
theorem claim_C4 (geocode : String → Option Location)
    (geodesic_km : ℚ × ℚ → ℚ × ℚ → ℚ) (startPoint endPoint : String)
    (transports : List Transport) (num_travelers : ℚ)
    (h : geocode startPoint = none ∨ geocode endPoint = none) :
    calculate_co2_footprint geocode geodesic_km startPoint endPoint
      transports num_travelers = none := by
  rcases h with h | h
  · simp [calculate_co2_footprint, h]
  · cases hs : geocode startPoint <;>
      simp [calculate_co2_footprint, hs, h]

/-- Witness for C4: a geocoder that resolves nothing yields no result. -/
theorem claim_C4_witness :
    ((fun _ : String => (none : Option Location)) "Atlantis" = none ∨
     (fun _ : String => (none : Option Location)) "Berlin" = none) ∧
    calculate_co2_footprint (fun _ => none) (fun _ _ => 0) "Atlantis" "Berlin"
      [.Auto, .Zug] 1 = none :=
  ⟨Or.inl rfl,
   claim_C4 (fun _ => none) (fun _ _ => 0) "Atlantis" "Berlin"
     [.Auto, .Zug] 1 (Or.inl rfl)⟩

/-- C6: the concrete scenario values. 100 km by Train gives 130.0 km,
5.2 kg total, 5.2 kg per person for 1 traveler; 100 km by Plane gives
100.0 km and 24.0 kg total; 50 km by Car with 2 travelers gives 60.0 km,
10.2 kg total and 5.1 kg per person — exactly, on the rounded comparison
rows the code returns. -/
theorem claim_C6 :
    (comparison_row 100 .Zug 1).distanz_km = 130.0 ∧
    (comparison_row 100 .Zug 1).gesamt_co2_kg = 5.2 ∧
    (comparison_row 100 .Zug 1).co2_pro_person_kg = 5.2 ∧
    (comparison_row 100 .Flugzeug 1).distanz_km = 100.0 ∧
    (comparison_row 100 .Flugzeug 1).gesamt_co2_kg = 24.0 ∧
    (comparison_row 50 .Auto 2).distanz_km = 60.0 ∧
    (comparison_row 50 .Auto 2).gesamt_co2_kg = 10.2 ∧
    (comparison_row 50 .Auto 2).co2_pro_person_kg = 5.1 := by
  refine ⟨?_, ?_, ?_, ?_, ?_, ?_, ?_, ?_⟩ <;>
    norm_num [comparison_row, distanz, gesamt_co2, co2_pro_person, round2,
      round_eq, distance_factors, emission_factors]

/-- C10: every comparison row carries distance, per-person CO2 and total
CO2 rounded to two decimal places, the direct geodesic distance is itself
rounded to two decimal places (src/app.py line 218) before the per-mode
multiplication, and consequently for some inputs the returned values
differ from the exact unrounded products. -/
theorem claim_C10 :
    (∀ (geocode : String → Option Location)
       (geodesic_km : ℚ × ℚ → ℚ × ℚ → ℚ) (startPoint endPoint : String)
       (transports : List Transport) (num_travelers : ℚ)
       (ls le : Location),
       geocode startPoint = some ls → geocode endPoint = some le →
       calculate_co2_footprint geocode geodesic_km startPoint endPoint
           transports num_travelers =
         some { rows := transports.map (fun t =>
                  comparison_row
                    (round2 (geodesic_km (ls.latitude, ls.longitude)
                      (le.latitude, le.longitude))) t num_travelers)
                direct_distance := round2 (geodesic_km
                  (ls.latitude, ls.longitude) (le.latitude, le.longitude))
                start_coords := (ls.latitude, ls.longitude)
                end_coords := (le.latitude, le.longitude) }) ∧
    (∀ (direct : ℚ) (t : Transport) (n : ℚ),
       comparison_row direct t n =
         { transportmittel := t
           distanz_km := round2 (direct * distance_factors t)
           co2_pro_person_kg :=
             round2 (direct * distance_factors t * emission_factors t / n)
           gesamt_co2_kg :=
             round2 (direct * distance_factors t * emission_factors t) }) ∧
    (∃ raw : ℚ,
       (comparison_row (round2 raw) .Auto 1).distanz_km ≠
         raw * distance_factors .Auto) := by
  refine ⟨?_, ?_, ?_⟩
  · intro geocode geodesic_km startPoint endPoint transports num_travelers
      ls le h1 h2
    simp only [calculate_co2_footprint, h1, h2]
  · intro direct t n
    rfl
  · refine ⟨100.123, ?_⟩
    norm_num [comparison_row, distanz, round2, round_eq, distance_factors]

/-- Witness for C10: a geocoder resolving both endpoints produces rows
built from the pre-rounded direct distance. -/
theorem claim_C10_witness :
    ((fun _ : String => some (⟨0, 0⟩ : Location)) "Paris" =
       some (⟨0, 0⟩ : Location)) ∧
    calculate_co2_footprint (fun _ => some ⟨0, 0⟩) (fun _ _ => 100.123)
        "Paris" "Rom" [.Auto] 1 =
      some { rows := [.Auto].map (fun t =>
               comparison_row (round2 ((fun _ _ => (100.123 : ℚ)) ((0:ℚ), (0:ℚ))
                 ((0:ℚ), (0:ℚ)))) t 1)
             direct_distance := round2 ((fun _ _ => (100.123 : ℚ))
               ((0:ℚ), (0:ℚ)) ((0:ℚ), (0:ℚ)))
             start_coords := ((0:ℚ), (0:ℚ))
             end_coords := ((0:ℚ), (0:ℚ)) } :=
  ⟨rfl,
   claim_C10.1 (fun _ => some ⟨0, 0⟩) (fun _ _ => 100.123) "Paris" "Rom"
     [.Auto] 1 ⟨0, 0⟩ ⟨0, 0⟩ rfl rfl⟩

/-! ## Synthetic training data (src/app.py lines 29-98) -/

/-- The four vehicle-type categories, in the order passed to
`np.random.choice` (src/app.py line 39). -/
def vehicle_type_choices : List String :=
  ["Kleinwagen", "Mittelklasse", "SUV", "Luxusklasse"]

/-- The four seasons, in the order passed to `np.random.choice`
(src/app.py line 42). -/
def season_choices : List String :=
  ["Frühling", "Sommer", "Herbst", "Winter"]

/-- The per-row vehicle-type factor (src/app.py lines 53-57): the array
starts at 1 and is overwritten by each masked assignment in source order. -/
def type_factor (vehicle_type : String) : ℚ :=
  let f : ℚ := 1
  let f := if vehicle_type = "Kleinwagen" then 0.8 else f
  let f := if vehicle_type = "Mittelklasse" then 1.0 else f
  let f := if vehicle_type = "SUV" then 1.4 else f
  if vehicle_type = "Luxusklasse" then 1.6 else f

/-- The per-row season factor (src/app.py lines 59-63): starts at 1,
overwritten by each masked assignment in source order. -/
def season_factor (season : String) : ℚ :=
  let f : ℚ := 1
  let f := if season = "Frühling" then 1.0 else f
  let f := if season = "Sommer" then 0.95 else f
  let f := if season = "Herbst" then 1.05 else f
  if season = "Winter" then 1.15 else f

/-- One row's target value (src/app.py lines 48-71), parameterized by the
values drawn for that row from numpy's seeded stream and by the Gaussian
noise draw: `base * age_factor * type_factor * season_factor *
traffic_factor + noise`. The result is not clamped. -/
def co2_emission (distance : ℚ) (vehicle_age : ℤ) (vehicle_type season : String)
    (traffic_level : ℤ) (noise : ℚ) : ℚ :=
  let base_emissions := distance * 0.17
  let age_factor : ℚ := 1 + (vehicle_age : ℚ) * 0.01
  let traffic_factor : ℚ := 1 + ((traffic_level : ℚ) - 1) * 0.05
  base_emissions * age_factor * type_factor vehicle_type *
    season_factor season * traffic_factor + noise

/-- The spec's vehicle-type factor map {Compact:0.8, MidSize:1.0, SUV:1.4,
Luxury:1.6}, keyed over the source category names (Kleinwagen = Compact,
Mittelklasse = MidSize, Luxusklasse = Luxury); written from the spec's
words for comparison with the source-derived `type_factor`. -/
def spec_type_factor (vehicle_type : String) : ℚ :=
  if vehicle_type = "Kleinwagen" then 0.8
  else if vehicle_type = "Mittelklasse" then 1.0
  else if vehicle_type = "SUV" then 1.4
  else 1.6

/-- The spec's season factor map {Spring:1.0, Summer:0.95, Autumn:1.05,
Winter:1.15} over the source names (Frühling = Spring, Sommer = Summer,
Herbst = Autumn); written from the spec's words. -/
def spec_season_factor (season : String) : ℚ :=
  if season = "Frühling" then 1.0
  else if season = "Sommer" then 0.95
  else if season = "Herbst" then 1.05
  else 1.15

/-- The spec's target formula, as stated:
`distance * 0.17 * (1 + 0.01*vehicle_age) * type_factor * season_factor *
(1 + 0.05*(traffic_level - 1)) + noise`. -/
def spec_co2_target (distance : ℚ) (vehicle_age : ℤ) (vehicle_type season : String)
    (traffic_level : ℤ) (noise : ℚ) : ℚ :=
  distance * 0.17 * (1 + 0.01 * (vehicle_age : ℚ)) * spec_type_factor vehicle_type *
    spec_season_factor season * (1 + 0.05 * ((traffic_level : ℚ) - 1)) + noise

/-- Evaluation of `type_factor` on the four categories. -/
lemma type_factor_eval :
    type_factor "Kleinwagen" = 0.8 ∧ type_factor "Mittelklasse" = 1.0 ∧
    type_factor "SUV" = 1.4 ∧ type_factor "Luxusklasse" = 1.6 :=
  ⟨rfl, rfl, rfl, rfl⟩

/-- Evaluation of `season_factor` on the four seasons. -/
lemma season_factor_eval :
    season_factor "Frühling" = 1.0 ∧ season_factor "Sommer" = 0.95 ∧
    season_factor "Herbst" = 1.05 ∧ season_factor "Winter" = 1.15 :=
  ⟨rfl, rfl, rfl, rfl⟩

/-- Evaluation of `spec_type_factor` on the four categories. -/
lemma spec_type_factor_eval :
    spec_type_factor "Kleinwagen" = 0.8 ∧ spec_type_factor "Mittelklasse" = 1.0 ∧
    spec_type_factor "SUV" = 1.4 ∧ spec_type_factor "Luxusklasse" = 1.6 :=
  ⟨rfl, rfl, rfl, rfl⟩

/-- Evaluation of `spec_season_factor` on the four seasons. -/
lemma spec_season_factor_eval :
    spec_season_factor "Frühling" = 1.0 ∧ spec_season_factor "Sommer" = 0.95 ∧
    spec_season_factor "Herbst" = 1.05 ∧ spec_season_factor "Winter" = 1.15 :=
  ⟨rfl, rfl, rfl, rfl⟩

/-- C5: for every row of the synthetic table, whatever values the seeded
stream drew for it, the target equals the spec's formula
`distance * 0.17 * (1 + 0.01*age) * type_factor * season_factor *
(1 + 0.05*(traffic-1)) + noise`; and the result is not clamped — a row
with in-range draws (distance 10, age 0, Kleinwagen, Sommer, traffic 1)
and noise -5 has a negative target. -/
theorem claim_C5 :
    (∀ (distance : ℚ) (vehicle_age : ℤ) (vehicle_type season : String)
       (traffic_level : ℤ) (noise : ℚ),
       vehicle_type ∈ vehicle_type_choices → season ∈ season_choices →
       co2_emission distance vehicle_age vehicle_type season traffic_level noise =
         spec_co2_target distance vehicle_age vehicle_type season
           traffic_level noise) ∧
    co2_emission 10 0 "Kleinwagen" "Sommer" 1 (-5) < 0 := by
  constructor
  · intro distance vehicle_age vehicle_type season traffic_level noise hv hs
    rcases (show vehicle_type = "Kleinwagen" ∨ vehicle_type = "Mittelklasse" ∨
        vehicle_type = "SUV" ∨ vehicle_type = "Luxusklasse" by
      simpa [vehicle_type_choices] using hv) with rfl | rfl | rfl | rfl <;>
    rcases (show season = "Frühling" ∨ season = "Sommer" ∨
        season = "Herbst" ∨ season = "Winter" by
      simpa [season_choices] using hs) with rfl | rfl | rfl | rfl <;>
      (simp only [co2_emission, spec_co2_target, type_factor_eval,
         season_factor_eval, spec_type_factor_eval, spec_season_factor_eval];
       push_cast; ring)
  · norm_num [co2_emission, type_factor_eval.1, season_factor_eval.2.1]

/-- Witness for C5 at an in-range row (SUV, Winter). -/
theorem claim_C5_witness :
    ("SUV" ∈ vehicle_type_choices) ∧ ("Winter" ∈ season_choices) ∧
    co2_emission 200 5 "SUV" "Winter" 7 2 =
      spec_co2_target 200 5 "SUV" "Winter" 7 2 :=
  ⟨by decide, by decide,
   claim_C5.1 200 5 "SUV" "Winter" 7 2 (by decide) (by decide)⟩

/-! ## ML prediction (src/app.py lines 87-132) -/

/-- Python's `str.startswith`, modelled on the character lists (so that
it is kernel-computable). -/
def startswith (s pre : String) : Bool := pre.data.isPrefixOf s.data

/-- The three numeric feature columns, in the order the training frame
declares them (src/app.py lines 74-79). -/
def numeric_columns : List String := ["distance", "vehicle_age", "traffic_level"]

/-- The one-hot vehicle-type columns produced by
`pd.get_dummies(vehicle_types, prefix='vehicle_type')` (src/app.py
line 40): `prefix + '_' + category`, categories in lexicographic order. -/
def vehicle_type_columns : List String :=
  ["vehicle_type_Kleinwagen", "vehicle_type_Luxusklasse",
   "vehicle_type_Mittelklasse", "vehicle_type_SUV"]

/-- The one-hot season columns produced by
`pd.get_dummies(seasons, prefix='season')` (src/app.py line 43). -/
def season_columns : List String :=
  ["season_Frühling", "season_Herbst", "season_Sommer", "season_Winter"]

/-- The list `list(X.columns)` returned by `train_co2_model` (src/app.py lines
74-82 and 98): the numeric columns followed by the vehicle-type dummies
and the season dummies. With seed 42 and 1000 samples every category is
drawn, so all eight indicator columns are present. -/
def feature_columns : List String :=
  numeric_columns ++ vehicle_type_columns ++ season_columns

/-- Column assignment `frame[col] = v` on a single-row frame: overwrite
the value if the column exists, else append the column. -/
def setCol (frame : List (String × ℚ)) (col : String) (v : ℚ) :
    List (String × ℚ) :=
  if frame.any (fun p => p.1 == col) then
    frame.map (fun p => if p.1 == col then (col, v) else p)
  else frame ++ [(col, v)]

/-- Column read on a single-row frame: `none` when the column is absent. -/
def getCol (frame : List (String × ℚ)) (col : String) : Option ℚ :=
  (frame.find? (fun p => p.1 == col)).map Prod.snd

/-- Reindexing `input_data[columns]`: select the given columns in the given order;
pandas raises a `KeyError` (modelled as `none`) when one is missing. -/
def reindex (columns : List String) (frame : List (String × ℚ)) :
    Option (List (String × ℚ)) :=
  match columns with
  | [] => some []
  | c :: cs =>
      match getCol frame c, reindex cs frame with
      | some v, some rest => some ((c, v) :: rest)
      | _, _ => none

/-- The single-row input frame assembled by `predict_co2_with_ml`
(src/app.py lines 103-124): the three numeric columns, then one pass over
`columns` setting each `vehicle_type_` column to 1 exactly when it equals
`'vehicle_type_' + vehicle_type` (line 110-113), one pass doing the same
for `season_` columns (lines 116-119), and a back-fill pass setting every
still-missing column to 0 (lines 122-124). -/
def predict_input (columns : List String) (distance vehicle_age : ℚ)
    (vehicle_type season : String) (traffic_level : ℚ) :
    List (String × ℚ) :=
  let input_data : List (String × ℚ) :=
    [("distance", distance), ("vehicle_age", vehicle_age),
     ("traffic_level", traffic_level)]
  let input_data := columns.foldl (fun d col =>
    if startswith col "vehicle_type_" then
      setCol d col (if col = "vehicle_type_" ++ vehicle_type then 1 else 0)
    else d) input_data
  let input_data := columns.foldl (fun d col =>
    if startswith col "season_" then
      setCol d col (if col = "season_" ++ season then 1 else 0)
    else d) input_data
  columns.foldl (fun d col =>
    if d.any (fun p => p.1 == col) then d else setCol d col 0) input_data

/-- Modelled from the spec: the fitted scikit-learn
`RandomForestRegressor` (library code external to src/). Once fitted it is
an immutable value: the list of feature names seen at fit time and a
deterministic prediction function on feature vectors. -/
structure RFModel where
  feature_names_in : List String
  predict_fn : List ℚ → ℚ

/-- Modelled from the spec: `model.predict(frame)` for a fitted
scikit-learn estimator validates that the frame's columns equal, as an
ordered list, the feature names seen at fit time, and raises (modelled as
`none`) on any mismatch; on a match it applies the fitted forest to the
row's values. -/
def model_predict (m : RFModel) (frame : List (String × ℚ)) : Option ℚ :=
  if frame.map Prod.fst = m.feature_names_in then
    some (m.predict_fn (frame.map Prod.snd))
  else none

/-- The function `predict_co2_with_ml` (src/app.py lines 101-132): assemble the input
frame, reorder it to `columns`, and predict. -/
def predict_co2_with_ml (distance vehicle_age : ℚ)
    (vehicle_type season : String) (traffic_level : ℚ)
    (m : RFModel) (columns : List String) : Option ℚ :=
  match reindex columns
      (predict_input columns distance vehicle_age vehicle_type season
        traffic_level) with
  | some input_data => model_predict m input_data
  | none => none

/-- A successful `reindex` returns exactly the requested columns in the
requested order. -/
lemma reindex_map_fst {columns : List String} {frame : List (String × ℚ)}
    {l : List (String × ℚ)} (h : reindex columns frame = some l) :
    l.map Prod.fst = columns := by
  induction columns generalizing l with
  | nil =>
      simp only [reindex] at h
      simp [← Option.some_inj.mp h]
  | cons c cs ih =>
      simp only [reindex] at h
      cases hg : getCol frame c with
      | none => rw [hg] at h; exact absurd h (by simp)
      | some v =>
          rw [hg] at h
          cases hr : reindex cs frame with
          | none => rw [hr] at h; exact absurd h (by simp)
          | some rest =>
              rw [hr] at h
              cases Option.some_inj.mp h
              simp [ih hr]

/-- C3: whenever the column list used to assemble the feature vector
differs from the column list recorded at training time, prediction fails
(returns no value) — the estimator's contract check rejects the frame and
no silently computed prediction is returned. -/
theorem claim_C3 (m : RFModel) (columns : List String)
    (distance vehicle_age traffic_level : ℚ) (vehicle_type season : String)
    (hne : columns ≠ m.feature_names_in) :
    predict_co2_with_ml distance vehicle_age vehicle_type season
      traffic_level m columns = none := by
  unfold predict_co2_with_ml
  cases hr : reindex columns
      (predict_input columns distance vehicle_age vehicle_type season
        traffic_level) with
  | none => rfl
  | some l => simp [model_predict, reindex_map_fst hr, hne]

/-- Witness for C3: a model trained on a different column set rejects. -/
theorem claim_C3_witness :
    feature_columns ≠ (RFModel.mk ["distance"] (fun _ => 0)).feature_names_in ∧
    predict_co2_with_ml 120 5 "SUV" "Winter" 7
      (RFModel.mk ["distance"] (fun _ => 0)) feature_columns = none :=
  ⟨by decide,
   claim_C3 (RFModel.mk ["distance"] (fun _ => 0)) feature_columns
     120 5 7 "SUV" "Winter" (by decide)⟩

/-- C7: prediction is deterministic and factors through the assembled
feature frame: two calls against the same trained model whose inputs
assemble to the same feature frame return the same output — in
particular, repeated calls with identical inputs do. -/
theorem claim_C7 (m : RFModel) (columns : List String)
    (d₁ a₁ tl₁ d₂ a₂ tl₂ : ℚ) (vt₁ s₁ vt₂ s₂ : String)
    (h : predict_input columns d₁ a₁ vt₁ s₁ tl₁ =
         predict_input columns d₂ a₂ vt₂ s₂ tl₂) :
    predict_co2_with_ml d₁ a₁ vt₁ s₁ tl₁ m columns =
      predict_co2_with_ml d₂ a₂ vt₂ s₂ tl₂ m columns := by
  unfold predict_co2_with_ml
  rw [h]

/-- Witness for C7: two calls with identical concrete inputs. -/
theorem claim_C7_witness :
    predict_input feature_columns 120 5 "SUV" "Winter" 7 =
      predict_input feature_columns 120 5 "SUV" "Winter" 7 ∧
    predict_co2_with_ml 120 5 "SUV" "Winter" 7
        (RFModel.mk feature_columns (fun v => v.sum)) feature_columns =
      predict_co2_with_ml 120 5 "SUV" "Winter" 7
        (RFModel.mk feature_columns (fun v => v.sum)) feature_columns :=
  ⟨rfl,
   claim_C7 (RFModel.mk feature_columns (fun v => v.sum)) feature_columns
     120 5 7 120 5 7 "SUV" "Winter" "SUV" "Winter" rfl⟩

/-- The spec's pointwise description of the assembled feature vector:
numeric fields carry the inputs; a one-hot indicator column carries 1
exactly when it is the column of the matching category, 0 otherwise.
Written from the spec's words for comparison with the source-derived
assembly `predict_input`/`reindex`. -/
def spec_feature_value (distance vehicle_age traffic_level : ℚ)
    (vehicle_type season : String) (col : String) : ℚ :=
  if col = "distance" then distance
  else if col = "vehicle_age" then vehicle_age
  else if col = "traffic_level" then traffic_level
  else if startswith col "vehicle_type_" then
    (if col = "vehicle_type_" ++ vehicle_type then 1 else 0)
  else (if col = "season_" ++ season then 1 else 0)

/-- Ground evaluation of `startswith` on the eleven training columns. -/
lemma startswith_eval :
    (startswith "distance" "vehicle_type_" = false) ∧
    (startswith "vehicle_age" "vehicle_type_" = false) ∧
    (startswith "traffic_level" "vehicle_type_" = false) ∧
    (startswith "vehicle_type_Kleinwagen" "vehicle_type_" = true) ∧
    (startswith "vehicle_type_Luxusklasse" "vehicle_type_" = true) ∧
    (startswith "vehicle_type_Mittelklasse" "vehicle_type_" = true) ∧
    (startswith "vehicle_type_SUV" "vehicle_type_" = true) ∧
    (startswith "season_Frühling" "vehicle_type_" = false) ∧
    (startswith "season_Herbst" "vehicle_type_" = false) ∧
    (startswith "season_Sommer" "vehicle_type_" = false) ∧
    (startswith "season_Winter" "vehicle_type_" = false) ∧
    (startswith "distance" "season_" = false) ∧
    (startswith "vehicle_age" "season_" = false) ∧
    (startswith "traffic_level" "season_" = false) ∧
    (startswith "vehicle_type_Kleinwagen" "season_" = false) ∧
    (startswith "vehicle_type_Luxusklasse" "season_" = false) ∧
    (startswith "vehicle_type_Mittelklasse" "season_" = false) ∧
    (startswith "vehicle_type_SUV" "season_" = false) ∧
    (startswith "season_Frühling" "season_" = true) ∧
    (startswith "season_Herbst" "season_" = true) ∧
    (startswith "season_Sommer" "season_" = true) ∧
    (startswith "season_Winter" "season_" = true) := by decide

/-- The assembled and reordered input frame agrees pointwise with the
spec's description of the feature vector, for all inputs. -/
lemma predict_input_spec (d a tl : ℚ) (vt s : String) :
    reindex feature_columns (predict_input feature_columns d a vt s tl) =
      some (feature_columns.map
        (fun c => (c, spec_feature_value d a tl vt s c))) := by
  simp [feature_columns, numeric_columns, vehicle_type_columns, season_columns,
    predict_input, reindex, setCol, getCol, spec_feature_value, startswith_eval]

/-- Appending to a fixed string on the left is injective. -/
lemma string_append_left_cancel {p a b : String} (h : p ++ a = p ++ b) :
    a = b := by
  have hd := congrArg String.data h
  rw [String.data_append, String.data_append] at hd
  exact String.ext (List.append_cancel_left hd)

/-- C8: the feature vector fed to the model carries the numeric inputs in
the three numeric columns and, in each one-hot group, 1 exactly at the
column of the matching category and 0 at every other indicator column, in
the exact column order recorded at training; and a vehicle type or season
unseen at training yields all-zero indicators for its group, with no
error. -/
theorem claim_C8 :
    (∀ (d a tl : ℚ) (vt s : String),
       reindex feature_columns (predict_input feature_columns d a vt s tl) =
         some (feature_columns.map
           (fun c => (c, spec_feature_value d a tl vt s c)))) ∧
    (∀ (d a tl : ℚ) (vt s : String),
       vt ∉ vehicle_type_choices → s ∉ season_choices →
       reindex feature_columns (predict_input feature_columns d a vt s tl) =
         some [("distance", d), ("vehicle_age", a), ("traffic_level", tl),
               ("vehicle_type_Kleinwagen", 0), ("vehicle_type_Luxusklasse", 0),
               ("vehicle_type_Mittelklasse", 0), ("vehicle_type_SUV", 0),
               ("season_Frühling", 0), ("season_Herbst", 0),
               ("season_Sommer", 0), ("season_Winter", 0)]) := by
  refine ⟨predict_input_spec, ?_⟩
  intro d a tl vt s hv hs
  have hvt : ∀ c : String, c ∈ vehicle_type_choices →
      ¬ ("vehicle_type_" ++ c = "vehicle_type_" ++ vt) := by
    intro c hc h
    exact hv (string_append_left_cancel h ▸ hc)
  have hse : ∀ c : String, c ∈ season_choices →
      ¬ ("season_" ++ c = "season_" ++ s) := by
    intro c hc h
    exact hs (string_append_left_cancel h ▸ hc)
  have h1 := hvt "Kleinwagen" (by decide)
  have h2 := hvt "Luxusklasse" (by decide)
  have h3 := hvt "Mittelklasse" (by decide)
  have h4 := hvt "SUV" (by decide)
  have h5 := hse "Frühling" (by decide)
  have h6 := hse "Herbst" (by decide)
  have h7 := hse "Sommer" (by decide)
  have h8 := hse "Winter" (by decide)
  rw [predict_input_spec]
  simp [feature_columns, numeric_columns, vehicle_type_columns,
    season_columns, spec_feature_value, startswith_eval]
  exact ⟨h1, h2, h3, h4, h5, h6, h7, h8⟩

/-- Witness for C8: a vehicle type and season unseen at training give
all-zero indicator columns without an error. -/
theorem claim_C8_witness :
    ("Traktor" ∉ vehicle_type_choices) ∧ ("Monsun" ∉ season_choices) ∧
    reindex feature_columns
        (predict_input feature_columns 1 2 "Traktor" "Monsun" 3) =
      some [("distance", 1), ("vehicle_age", 2), ("traffic_level", 3),
            ("vehicle_type_Kleinwagen", 0), ("vehicle_type_Luxusklasse", 0),
            ("vehicle_type_Mittelklasse", 0), ("vehicle_type_SUV", 0),
            ("season_Frühling", 0), ("season_Herbst", 0),
            ("season_Sommer", 0), ("season_Winter", 0)] :=
  ⟨by decide, by decide,
   claim_C8.2 1 2 3 "Traktor" "Monsun" (by decide) (by decide)⟩

/-! ## Feature importance (src/app.py lines 424-428) -/

/-- Modelled from the spec: scikit-learn's
`RandomForestRegressor.feature_importances_` (library code external to
src/). Each fitted tree contributes a componentwise non-negative
importance vector (total impurity decrease per feature); the forest
averages them into `raw` and divides by the total, so the published
scores are `raw[i] / sum(raw)`. -/
def normalized_importances (raw : List ℚ) : List ℚ :=
  raw.map (fun r => r / raw.sum)

/-- The `feature_importance` DataFrame (src/app.py lines 425-428): pair
the feature names with the model's importance scores and sort by
importance, descending. -/
def feature_importance (names : List String) (raw : List ℚ) :
    List (String × ℚ) :=
  (names.zip (normalized_importances raw)).mergeSort
    (fun p q => decide (q.2 ≤ p.2))

/-- C9: the feature-importance ranking pairs every feature name with a
score in [0, 1], and the scores sum to exactly 1, whenever the forest's
averaged raw importances are non-negative with positive total (which the
fitted forest guarantees; a positive total holds whenever any tree
split). -/
theorem claim_C9 (raw : List ℚ) (hlen : raw.length = feature_columns.length)
    (hnn : ∀ x ∈ raw, 0 ≤ x) (hpos : 0 < raw.sum) :
    (∀ p ∈ feature_importance feature_columns raw, 0 ≤ p.2 ∧ p.2 ≤ 1) ∧
    ((feature_importance feature_columns raw).map Prod.snd).sum = 1 ∧
    ((feature_importance feature_columns raw).map Prod.fst).Perm
      feature_columns := by
  have hperm :
      (feature_importance feature_columns raw).Perm
        (feature_columns.zip (normalized_importances raw)) :=
    List.mergeSort_perm _ _
  have hlen' : (normalized_importances raw).length = feature_columns.length := by
    simp [normalized_importances, hlen]
  refine ⟨?_, ?_, ?_⟩
  · rintro ⟨name, score⟩ hp
    have hz := hperm.mem_iff.mp hp
    have hsc : score ∈ normalized_importances raw := (List.of_mem_zip hz).2
    obtain ⟨r, hr, rfl⟩ := List.mem_map.mp hsc
    constructor
    · exact div_nonneg (hnn r hr) hpos.le
    · exact (div_le_one hpos).mpr (List.single_le_sum hnn r hr)
  · have h1 : ((feature_importance feature_columns raw).map Prod.snd).sum =
        ((feature_columns.zip (normalized_importances raw)).map Prod.snd).sum :=
      (hperm.map Prod.snd).sum_eq
    rw [h1, List.map_snd_zip _ _ (le_of_eq hlen'),
      normalized_importances]
    have h2 : (raw.map fun r => r / raw.sum).sum =
        (raw.map fun r => r * (raw.sum)⁻¹).sum := by
      simp [div_eq_mul_inv]
    rw [h2, List.sum_map_mul_right]
    simp [mul_inv_cancel₀ (ne_of_gt hpos)]
  · have h4 := hperm.map Prod.fst
    rw [List.map_fst_zip _ _ (le_of_eq hlen'.symm)] at h4
    exact h4

/-- Witness for C9 with eleven equal raw importances. -/
theorem claim_C9_witness :
    ([1, 1, 1, 1, 1, 1, 1, 1, 1, 1, (1 : ℚ)].length =
       feature_columns.length) ∧
    (0 < [1, 1, 1, 1, 1, 1, 1, 1, 1, 1, (1 : ℚ)].sum) ∧
    ((∀ p ∈ feature_importance feature_columns
         [1, 1, 1, 1, 1, 1, 1, 1, 1, 1, (1 : ℚ)], 0 ≤ p.2 ∧ p.2 ≤ 1) ∧
     ((feature_importance feature_columns
         [1, 1, 1, 1, 1, 1, 1, 1, 1, 1, (1 : ℚ)]).map Prod.snd).sum = 1 ∧
     ((feature_importance feature_columns
         [1, 1, 1, 1, 1, 1, 1, 1, 1, 1, (1 : ℚ)]).map Prod.fst).Perm
       feature_columns) :=
  ⟨rfl, by norm_num,
   claim_C9 [1, 1, 1, 1, 1, 1, 1, 1, 1, 1, (1 : ℚ)] rfl
     (by intro x hx; simp at hx; simp [hx]) (by norm_num)⟩

end EmissionExplorer
